import Mathlib

/-
Verification of the contradiction detection and resolution engine
(src/contradiction/detector.py, with the data model of src/state/models.py
and the resolution-attachment loop of src/workflows/orchestrator.py).

Modelling conventions:
- Python floats are modelled as exact rationals (ℚ); the engine's constants
  (0.10, 0.25, 1.5, 2.0, 0.3, 0.5) and all inputs of interest are decimal.
- Python strings are modelled as Lean String, processed through their
  character lists; `kw in text` is substring containment, `str.split()` is
  whitespace splitting that drops empty pieces, sets of words are modelled
  by lists with duplicate-free counting.
- The two regular expressions (_DURATION_PATTERN and _DOLLAR_PATTERN) are
  embedded as direct scanners with `re.finditer` semantics: scan left to
  right, emit the leftmost match, continue after its end.  Alternations try
  their branches in written order; the optional groups of these patterns
  never require backtracking into an earlier group (units and suffixes
  start with letters, which can never continue a number), so the scanners
  match the regex semantics.
- `float(raw)` can raise ValueError (raw may be empty when a dollar match
  consists only of commas); fallible extraction returns Option/Except, and
  `detect` returns Except String (List Contradiction).
- Contradiction ids are random UUIDs in the source and are not modelled;
  no claim mentions them.  Finding timestamps and execution metadata are
  ignored by the engine and omitted.
-/

set_option maxRecDepth 8000
set_option maxHeartbeats 1600000
set_option allowUnsafeReducibility true

attribute [semireducible] Rat.mul Rat.add Rat.sub Rat.div Rat.neg Rat.inv Rat.ofScientific

-- ---------------------------------------------------------------------------
-- Data model (src/state/models.py)
-- ---------------------------------------------------------------------------

inductive FindingType where
  | observation
  | analysis
  | recommendation
  | action
deriving DecidableEq

/-- The `.value` of the Python str-enum. -/
def FindingType.value : FindingType → String
  | .observation => "observation"
  | .analysis => "analysis"
  | .recommendation => "recommendation"
  | .action => "action"

inductive ContradictionSeverity where
  | low
  | medium
  | high
deriving DecidableEq

structure Finding where
  agent_name : String
  finding_type : FindingType
  content : String
  confidence : ℚ
  evidence_refs : List String := []
deriving DecidableEq

structure Contradiction where
  finding_a : Finding
  finding_b : Finding
  description : String
  severity : ContradictionSeverity
  resolution : Option String := none
  resolved : Bool := false
deriving DecidableEq

structure AgentOutput where
  agent_name : String
  findings : List Finding
deriving DecidableEq

-- ---------------------------------------------------------------------------
-- Python string primitives
-- ---------------------------------------------------------------------------

/-- Python `\s` and `str.split()` whitespace: space, tab, newline, carriage
return, vertical tab, form feed. -/
def pyIsSpace (c : Char) : Bool :=
  c == ' ' || c == '\t' || c == '\n' || c == '\r' || c == '\x0b' || c == '\x0c'

/-- Python `str.lower()` (the texts of this engine are ASCII). -/
def pyLower (s : String) : String := String.mk (s.data.map Char.toLower)

/-- Python `str.upper()`. -/
def pyUpper (s : String) : String := String.mk (s.data.map Char.toUpper)

/-- Boolean substring test on character lists. -/
def pyInChars (needle : List Char) : List Char → Bool
  | [] => needle.isPrefixOf []
  | c :: rest => needle.isPrefixOf (c :: rest) || pyInChars needle rest

/-- Python `needle in hay` on strings. -/
def pyIn (needle hay : String) : Bool := pyInChars needle.data hay.data

/-- Python `str.split()` with no argument: split on runs of whitespace,
dropping empty pieces. -/
def pySplitAux : List Char → List Char → List String
  | acc, [] => if acc.isEmpty then [] else [String.mk acc.reverse]
  | acc, c :: rest =>
    if pyIsSpace c then
      (if acc.isEmpty then [] else [String.mk acc.reverse]) ++ pySplitAux [] rest
    else
      pySplitAux (acc.concat c) rest

def pySplit (s : String) : List String := pySplitAux [] s.data

/-- Size of `set(wsA) & set(wsB) - set(stop)`. -/
def overlapCount (wsA wsB stop : List String) : Nat :=
  (wsA.dedup.filter (fun w => wsB.contains w && !stop.contains w)).length

/-- Python `str.index` (first occurrence; callers guard membership). -/
def pyStrIndex (needle : List Char) : List Char → Nat
  | [] => 0
  | c :: rest => if needle.isPrefixOf (c :: rest) then 0 else 1 + pyStrIndex needle rest

/-- Python `str.strip()`. -/
def pyStrip (cs : List Char) : List Char :=
  ((cs.dropWhile pyIsSpace).reverse.dropWhile pyIsSpace).reverse

-- ---------------------------------------------------------------------------
-- Keyword / pattern helpers (detector.py lines 38-110)
-- ---------------------------------------------------------------------------

def _IMPROVING_KEYWORDS : List String :=
  ["improving", "recovery", "recovering", "positive", "upward",
   "increasing", "better", "gained", "favorable", "trending up",
   "on track", "ahead"]

def _WORSENING_KEYWORDS : List String :=
  ["declining", "worsening", "negative", "downward", "decreasing",
   "worse", "degrading", "unfavorable", "trending down", "behind",
   "slipping", "eroding", "deteriorating"]

/-- The `_SEVERITY_KEYWORDS` dict, in its (insertion-ordered) key order. -/
def _SEVERITY_KEYWORDS : List (String × List String) :=
  [("critical", ["critical", "catastrophic", "showstopper", "unacceptable", "severe"]),
   ("high", ["high", "significant", "major", "serious", "substantial"]),
   ("medium", ["medium", "moderate", "manageable", "notable"]),
   ("low", ["low", "minor", "minimal", "negligible", "marginal"])]

def _text_lower (f : Finding) : String := pyLower f.content

/-- Check whether any keyword appears in the text. -/
def _has_keywords (text : String) (keywords : List String) : Bool :=
  keywords.any (fun kw => pyIn kw text)

/-- Extract the highest severity keyword found in text (the source iterates
the tiers in the order critical, high, medium, low). -/
def _extract_severity_label (text : String) : Option String :=
  let text_lower := pyLower text
  (_SEVERITY_KEYWORDS.find? (fun p => p.2.any (fun kw => pyIn kw text_lower))).map (·.1)

-- ---------------------------------------------------------------------------
-- Regex scanners (detector.py lines 57-91)
-- ---------------------------------------------------------------------------

def natOfDigits (l : List Char) : Nat :=
  l.foldl (fun n c => 10 * n + (c.toNat - 48)) 0

def fracOfDigits (l : List Char) : ℚ :=
  (natOfDigits l : ℚ) / ((10 : ℚ) ^ l.length)

/-- Case-insensitive literal match: the pattern (given lowercase) against the
head of the input; returns the rest of the input on success. -/
def matchCaseless : List Char → List Char → Option (List Char)
  | [], rest => some rest
  | _ :: _, [] => none
  | p :: ps, c :: cs => if p == c.toLower then matchCaseless ps cs else none

/-- First alternative (in written order) matching at the head of the input,
as in a regex alternation. -/
def firstAlt (alts : List String) (l : List Char) : Option (String × List Char) :=
  match alts with
  | [] => none
  | a :: rest =>
    match matchCaseless a.data l with
    | some r => some (a, r)
    | none => firstAlt rest l

/-- Alternation of `_DURATION_PATTERN`'s unit group, in the pattern's order
(the plural forms are listed but can never win over their singular prefix). -/
def durationUnits : List String := ["day", "days", "week", "weeks", "month", "months"]

/-- Attempt `_DURATION_PATTERN` = `(\d+(?:\.\d+)?)\s*(day|days|week|weeks|month|months)`
at the head of the text: numeric value of group 1, matched unit (group 2),
and the text after the match. -/
def durationMatchAt (l : List Char) : Option (ℚ × String × List Char) :=
  let ds := l.takeWhile Char.isDigit
  if ds.isEmpty then none
  else
    let rest1 := l.drop ds.length
    let vr : ℚ × List Char :=
      match rest1 with
      | '.' :: r =>
        let fs := r.takeWhile Char.isDigit
        if fs.isEmpty then ((natOfDigits ds : ℚ), rest1)
        else ((natOfDigits ds : ℚ) + fracOfDigits fs, r.drop fs.length)
      | _ => ((natOfDigits ds : ℚ), rest1)
    let rest3 := vr.2.dropWhile pyIsSpace
    match firstAlt durationUnits rest3 with
    | some (u, rest4) => some (vr.1, u, rest4)
    | none => none

/-- `re.finditer` over `_DURATION_PATTERN`: leftmost match, continue after its
end.  Fuel is the text length, which every step strictly decreases below. -/
def durationScanAux : Nat → List Char → List (ℚ × String)
  | 0, _ => []
  | _ + 1, [] => []
  | fuel + 1, c :: rest =>
    match durationMatchAt (c :: rest) with
    | some (v, u, rest2) => (v, u) :: durationScanAux fuel rest2
    | none => durationScanAux fuel rest

def durationFinditer (s : String) : List (ℚ × String) :=
  durationScanAux s.data.length s.data

/-- Convert a duration regex match to number of days. -/
def _normalize_duration_to_days (m : ℚ × String) : ℚ :=
  if m.2.data.take 4 = "week".data then m.1 * 7
  else if m.2.data.take 5 = "month".data then m.1 * 30
  else m.1

def isDollarBodyChar (c : Char) : Bool := c.isDigit || c == ','

/-- Alternation of `_DOLLAR_PATTERN`'s suffix group, in the pattern's order
("b" always beats "billion", "m" beats "million"; "thousand" can match). -/
def dollarSuffixes : List String := ["b", "m", "k", "billion", "million", "thousand"]

/-- Attempt `_DOLLAR_PATTERN` = `\$\s*([\d,]+(?:\.\d+)?)\s*(B|M|K|billion|million|thousand)?`
at the head of the text: group 1 characters, optional matched suffix (group 2),
and the text after the match. -/
def dollarMatchAt : List Char → Option (List Char × Option String × List Char)
  | '$' :: rest =>
    let rest1 := rest.dropWhile pyIsSpace
    let g1 := rest1.takeWhile isDollarBodyChar
    if g1.isEmpty then none
    else
      let rest2 := rest1.drop g1.length
      let gr : List Char × List Char :=
        match rest2 with
        | '.' :: r =>
          let fs := r.takeWhile Char.isDigit
          if fs.isEmpty then (g1, rest2) else (g1 ++ '.' :: fs, r.drop fs.length)
        | _ => (g1, rest2)
      let rest4 := gr.2.dropWhile pyIsSpace
      match firstAlt dollarSuffixes rest4 with
      | some (sfx, rest5) => some (gr.1, some sfx, rest5)
      | none => some (gr.1, none, rest4)
  | _ => none

/-- `re.finditer` over `_DOLLAR_PATTERN`. -/
def dollarScanAux : Nat → List Char → List (List Char × Option String)
  | 0, _ => []
  | _ + 1, [] => []
  | fuel + 1, c :: rest =>
    match dollarMatchAt (c :: rest) with
    | some (g1, g2, rest2) => (g1, g2) :: dollarScanAux fuel rest2
    | none => dollarScanAux fuel rest

def dollarFinditer (s : String) : List (List Char × Option String) :=
  dollarScanAux s.data.length s.data

/-- Python `float(raw)` for the strings group 1 can produce after comma
removal: digits, optionally a dot and fraction digits.  `float("")` raises
ValueError, modelled as `none`. -/
def pyFloat (cs : List Char) : Option ℚ :=
  let ip := cs.takeWhile Char.isDigit
  let rest := cs.drop ip.length
  match rest with
  | [] => if ip.isEmpty then none else some (natOfDigits ip : ℚ)
  | '.' :: fs =>
    if fs.all Char.isDigit && !(ip.isEmpty && fs.isEmpty) then
      some ((natOfDigits ip : ℚ) + fracOfDigits fs)
    else none
  | _ => none

def _MULTIPLIERS : List (String × ℚ) :=
  [("B", 1000000000), ("BILLION", 1000000000), ("M", 1000000), ("MILLION", 1000000),
   ("K", 1000), ("THOUSAND", 1000)]

/-- Convert a dollar regex match into a float in USD.  The source strips
commas from group 1 and calls `float` on the result, which raises when no
character is left (a group of only commas); then multiplies by the suffix
multiplier (default 1). -/
def _normalize_dollar (m : List Char × Option String) : Option ℚ :=
  let raw := m.1.filter (fun c => c != ',')
  match pyFloat raw with
  | none => none
  | some value =>
    let suffix := pyUpper (m.2.getD "")
    some (value * ((_MULTIPLIERS.find? (fun p => p.1 == suffix)).map (·.2)).getD 1)

/-- Python `max` over a nonempty list (callers guard nonemptiness; the source
raises on an empty list, never reached). -/
def listMax : List ℚ → ℚ
  | [] => 0
  | [x] => x
  | x :: y :: rest => max x (listMax (y :: rest))

-- ---------------------------------------------------------------------------
-- Python number formatting (used by the f-string descriptions)
-- ---------------------------------------------------------------------------

/-- Round to the nearest integer, ties to even (Python's float formatting). -/
def roundHalfEven (q : ℚ) : ℤ :=
  let f : ℤ := ⌊q⌋
  if q - f < 1/2 then f
  else if (1 : ℚ)/2 < q - f then f + 1
  else if f % 2 = 0 then f else f + 1

/-- Python `f"{q:.0f}"`. -/
def formatF0 (q : ℚ) : String := toString (roundHalfEven q)

/-- Python `f"{q:.0%}"`. -/
def formatPct0 (q : ℚ) : String := toString (roundHalfEven (q * 100)) ++ "%"

/-- Python `f"{q:.2f}"`. -/
def formatF2 (q : ℚ) : String :=
  let n := roundHalfEven (q * 100)
  let m := n.natAbs
  (if n < 0 then "-" else "") ++ toString (m / 100) ++ "." ++
    (if m % 100 < 10 then "0" else "") ++ toString (m % 100)

/-- Insert thousands separators into a reversed digit list. -/
def groupThreesRev : List Char → List Char
  | a :: b :: c :: d :: rest => a :: b :: c :: ',' :: groupThreesRev (d :: rest)
  | l => l

/-- Python `f"{q:,.0f}"`. -/
def formatCommaF0 (q : ℚ) : String :=
  let n := roundHalfEven q
  (if n < 0 then "-" else "") ++
    String.mk ((groupThreesRev (Nat.repr n.natAbs).data.reverse).reverse)

-- ---------------------------------------------------------------------------
-- Pairwise iteration: for i in range(n): for j in range(i+1, n)
-- ---------------------------------------------------------------------------

def pairsOf {α : Type} : List α → List (α × α)
  | [] => []
  | x :: xs => xs.map (fun y => (x, y)) ++ pairsOf xs

-- ---------------------------------------------------------------------------
-- Rule 1: CPI/SPI direction disagreement (detector.py lines 171-214)
-- ---------------------------------------------------------------------------

def evm_terms : List String := ["cpi", "spi", "cost performance", "schedule performance"]

/-- Body of rule 1's inner loop for one ordered pair. -/
def cpiPairCheck (fa fb : Finding) : Option Contradiction :=
  if fa.agent_name == fb.agent_name then none
  else
    let text_a := _text_lower fa
    let text_b := _text_lower fb
    let a_improving := _has_keywords text_a _IMPROVING_KEYWORDS
    let a_worsening := _has_keywords text_a _WORSENING_KEYWORDS
    let b_improving := _has_keywords text_b _IMPROVING_KEYWORDS
    let b_worsening := _has_keywords text_b _WORSENING_KEYWORDS
    if (a_improving && b_worsening) || (a_worsening && b_improving) then
      some { finding_a := fa, finding_b := fb,
             description := "CPI/SPI direction disagreement: '" ++ fa.agent_name
               ++ "' indicates " ++ (if a_improving then "improvement" else "decline")
               ++ " while '" ++ fb.agent_name ++ "' indicates "
               ++ (if b_improving then "improvement" else "decline") ++ ".",
             severity := .high }
    else none

def _rule_cpi_spi_direction (findings : List Finding) : List Contradiction :=
  let evm_findings := findings.filter (fun f => evm_terms.any (fun t => pyIn t (_text_lower f)))
  (pairsOf evm_findings).filterMap (fun p => cpiPairCheck p.1 p.2)

-- ---------------------------------------------------------------------------
-- Rule 2: Risk assessment severity conflict (detector.py lines 220-267)
-- ---------------------------------------------------------------------------

def risk_terms : List String := ["risk", "threat", "issue", "concern", "hazard"]

def rule2_stopwords : List String := ["the", "a", "an", "is", "are", "of", "in", "to", "and"]

def severity_order : List String := ["low", "medium", "high", "critical"]

/-- Body of rule 2's inner loop for one ordered pair. -/
def riskPairCheck (fa fb : Finding) : Option Contradiction :=
  if fa.agent_name == fb.agent_name then none
  else
    match _extract_severity_label (_text_lower fa), _extract_severity_label (_text_lower fb) with
    | some sev_a, some sev_b =>
      if sev_a ≠ sev_b then
        let words_a := pySplit (_text_lower fa)
        let words_b := pySplit (_text_lower fb)
        if 5 ≤ overlapCount words_a words_b rule2_stopwords then
          let gap := ((severity_order.indexOf sev_a : ℤ) - severity_order.indexOf sev_b).natAbs
          some { finding_a := fa, finding_b := fb,
                 description := "Risk severity conflict: '" ++ fa.agent_name
                   ++ "' rates as " ++ sev_a ++ " while '" ++ fb.agent_name
                   ++ "' rates as " ++ sev_b ++ ".",
                 severity := if 2 ≤ gap then .high else .medium }
        else none
      else none
    | _, _ => none

def _rule_risk_severity_conflict (findings : List Finding) : List Contradiction :=
  let risk_findings := findings.filter (fun f => risk_terms.any (fun t => pyIn t (_text_lower f)))
  (pairsOf risk_findings).filterMap (fun p => riskPairCheck p.1 p.2)

-- ---------------------------------------------------------------------------
-- Rule 3: Schedule impact mismatch (detector.py lines 273-327)
-- ---------------------------------------------------------------------------

def schedule_terms : List String :=
  ["slip", "delay", "behind schedule", "late", "schedule impact"]

/-- Body of rule 3's inner loop for one ordered pair. -/
def schedulePairCheck (fa fb : Finding) : Option Contradiction :=
  if fa.agent_name == fb.agent_name then none
  else
    let text_a := _text_lower fa
    let text_b := _text_lower fb
    if durationFinditer text_a ≠ [] ∧ durationFinditer text_b ≠ [] then
      let days_a := (durationFinditer text_a).map _normalize_duration_to_days
      let days_b := (durationFinditer text_b).map _normalize_duration_to_days
      let max_a := listMax days_a
      let max_b := listMax days_b
      if 0 < max_a ∧ 0 < max_b then
        let ratio := max max_a max_b / min max_a max_b
        if 1.5 < ratio then
          some { finding_a := fa, finding_b := fb,
                 description := "Schedule impact mismatch: '" ++ fa.agent_name
                   ++ "' estimates ~" ++ formatF0 max_a ++ " days while '"
                   ++ fb.agent_name ++ "' estimates ~" ++ formatF0 max_b ++ " days.",
                 severity := if 2.0 < ratio then .high else .medium }
        else none
      else none
    else none

def _rule_schedule_impact_mismatch (findings : List Finding) : List Contradiction :=
  let schedule_findings := findings.filter (fun f => schedule_terms.any (fun t => pyIn t (_text_lower f)))
  (pairsOf schedule_findings).filterMap (fun p => schedulePairCheck p.1 p.2)

-- ---------------------------------------------------------------------------
-- Rule 4: Cost estimate (EAC) divergence (detector.py lines 333-385)
-- ---------------------------------------------------------------------------

def cost_terms : List String :=
  ["eac", "estimate at completion", "cost estimate", "projected cost", "total cost"]

/-- Normalize every dollar match of a text, propagating the ValueError that
`_normalize_dollar` can raise (as in the source's list comprehension, the
first bad match aborts). -/
def extractDollars : List (List Char × Option String) → Except String (List ℚ)
  | [] => .ok []
  | m :: rest =>
    match _normalize_dollar m with
    | none => .error "could not convert string to float"
    | some v => (extractDollars rest).map (fun l => v :: l)

/-- Body of rule 4's inner loop for one ordered pair.  The dollar scan runs
on the raw (not lowercased) content, as in the source. -/
def costPairCheck (fa fb : Finding) : Except String (List Contradiction) :=
  if fa.agent_name == fb.agent_name then .ok []
  else do
    let dollars_a ← extractDollars (dollarFinditer fa.content)
    let dollars_b ← extractDollars (dollarFinditer fb.content)
    if dollars_a ≠ [] ∧ dollars_b ≠ [] then
      let max_a := listMax dollars_a
      let max_b := listMax dollars_b
      if 0 < max_a ∧ 0 < max_b then
        let pct_diff := |max_a - max_b| / min max_a max_b
        if 0.10 < pct_diff then
          .ok [{ finding_a := fa, finding_b := fb,
                 description := "Cost estimate divergence (" ++ formatPct0 pct_diff
                   ++ "): '" ++ fa.agent_name ++ "' cites $" ++ formatCommaF0 max_a
                   ++ " while '" ++ fb.agent_name ++ "' cites $" ++ formatCommaF0 max_b ++ ".",
                 severity := if 0.25 < pct_diff then .high else .medium }]
        else .ok []
      else .ok []
    else .ok []

/-- Run rule 4's pair loop in order; the first ValueError aborts the rule. -/
def costPairsRun : List (Finding × Finding) → Except String (List Contradiction)
  | [] => .ok []
  | p :: ps => do
    let l ← costPairCheck p.1 p.2
    let rest ← costPairsRun ps
    .ok (l ++ rest)

def _rule_cost_estimate_divergence (findings : List Finding) : Except String (List Contradiction) :=
  let cost_findings := findings.filter (fun f => cost_terms.any (fun t => pyIn t (_text_lower f)))
  costPairsRun (pairsOf cost_findings)

-- ---------------------------------------------------------------------------
-- Rule 5: Root cause disagreement (detector.py lines 391-453)
-- ---------------------------------------------------------------------------

/-- The cause phrases, in the written order of the source's set literal (a
Python set iterates in an unspecified order; no settled claim depends on
which qualifying phrase is found first). -/
def cause_terms : List String :=
  ["root cause", "caused by", "attributed to", "driven by", "due to", "because of"]

def meaningful_words : List String :=
  ["cost", "schedule", "quality", "supplier", "rework",
   "assembly", "wing", "fastener", "composite", "labor",
   "material", "delivery", "manufacturing", "tooling",
   "design", "engineering", "testing", "production",
   "avionics", "structures", "integration", "software"]

/-- The 80-character stripped snippet after the first occurrence of a cause
phrase (the caller guarantees the phrase occurs). -/
def causeSnippet (term : String) (text : String) : List Char :=
  let idx := pyStrIndex term.data text.data + term.data.length
  pyStrip ((text.data.drop idx).take 80)

/-- Body of rule 5's inner loop for one ordered pair: first cause phrase
present in both texts whose following snippets differ (the loop breaks only
after emitting). -/
def rootCausePairCheck (fa fb : Finding) : Option Contradiction :=
  if fa.agent_name == fb.agent_name then none
  else
    let text_a := _text_lower fa
    let text_b := _text_lower fb
    let shared_topics := meaningful_words.filter
      (fun w => (pySplit text_a).contains w && (pySplit text_b).contains w)
    if 2 ≤ shared_topics.length then
      match cause_terms.find? (fun term =>
          pyIn term text_a && pyIn term text_b &&
            causeSnippet term text_a != causeSnippet term text_b) with
      | some _ =>
        some { finding_a := fa, finding_b := fb,
               description := "Root cause disagreement on "
                 ++ String.intercalate ", " shared_topics ++ ": '" ++ fa.agent_name
                 ++ "' vs '" ++ fb.agent_name ++ "' identify different underlying causes.",
               severity := .medium }
      | none => none
    else none

def _rule_root_cause_disagreement (findings : List Finding) : List Contradiction :=
  let cause_findings := findings.filter (fun f => cause_terms.any (fun t => pyIn t (_text_lower f)))
  (pairsOf cause_findings).filterMap (fun p => rootCausePairCheck p.1 p.2)

-- ---------------------------------------------------------------------------
-- Rule 6: Mitigation / corrective action conflict (detector.py lines 459-530)
-- ---------------------------------------------------------------------------

def conflict_pairs : List (List String × List String × String) :=
  [(["accelerate", "expedite", "fast-track", "compress"],
    ["defer", "delay", "postpone", "descope"],
    "schedule approach: acceleration vs. deferral"),
   (["dual-source", "dual source", "alternate source", "second source"],
    ["sole-source", "sole source", "single source", "incumbent"],
    "sourcing strategy: dual-source vs. sole-source"),
   (["increase staffing", "add resources", "augment workforce", "hire", "overtime"],
    ["reduce cost", "cut spending", "reduce headcount", "stop overtime"],
    "resource strategy: increase vs. reduce"),
   (["rebaseline", "reset baseline", "over-target baseline"],
    ["maintain baseline", "hold baseline", "keep baseline", "no rebaseline"],
    "baseline strategy: rebaseline vs. maintain"),
   (["accept risk", "risk acceptance", "accept the risk"],
    ["mitigate risk", "risk mitigation", "reduce risk", "eliminate risk"],
    "risk response: acceptance vs. mitigation")]

/-- Body of rule 6's inner loop for one ordered pair: one contradiction per
matching opposite-keyword-set pair (no break). -/
def mitigationPairCheck (fa fb : Finding) : List Contradiction :=
  if fa.agent_name == fb.agent_name then []
  else
    let text_a := _text_lower fa
    let text_b := _text_lower fb
    conflict_pairs.filterMap (fun cp =>
      let a_in_x := _has_keywords text_a cp.1
      let a_in_y := _has_keywords text_a cp.2.1
      let b_in_x := _has_keywords text_b cp.1
      let b_in_y := _has_keywords text_b cp.2.1
      if (a_in_x && b_in_y) || (a_in_y && b_in_x) then
        some { finding_a := fa, finding_b := fb,
               description := "Mitigation conflict on " ++ cp.2.2 ++ ": '"
                 ++ fa.agent_name ++ "' vs '" ++ fb.agent_name ++ "'.",
               severity := .high }
      else none)

def _rule_mitigation_conflict (findings : List Finding) : List Contradiction :=
  let rec_findings := findings.filter
    (fun f => f.finding_type = FindingType.recommendation ∨ f.finding_type = FindingType.action)
  (pairsOf rec_findings).flatMap (fun p => mitigationPairCheck p.1 p.2)

-- ---------------------------------------------------------------------------
-- Rule 7: Confidence disparity on same finding type (detector.py lines 536-583)
-- ---------------------------------------------------------------------------

def rule7_trivial : List String :=
  ["the", "a", "an", "is", "are", "of", "in", "to", "and", "for", "that", "this", "with"]

/-- Body of rule 7's inner loop for one ordered pair. -/
def confidencePairCheck (fa fb : Finding) : Option Contradiction :=
  if fa.agent_name == fb.agent_name then none
  else if fa.finding_type ≠ fb.finding_type then none
  else
    let gap := |fa.confidence - fb.confidence|
    if gap ≤ 0.3 then none
    else
      let words_a := pySplit (_text_lower fa)
      let words_b := pySplit (_text_lower fb)
      if 4 ≤ overlapCount words_a words_b rule7_trivial then
        some { finding_a := fa, finding_b := fb,
               description := "Confidence disparity (" ++ formatF2 gap ++ ") on "
                 ++ fa.finding_type.value ++ " findings: '" ++ fa.agent_name
                 ++ "' at " ++ formatF2 fa.confidence ++ " vs '" ++ fb.agent_name
                 ++ "' at " ++ formatF2 fb.confidence ++ ".",
               severity := if gap ≤ 0.5 then .medium else .high }
      else none

def _rule_confidence_disparity (findings : List Finding) : List Contradiction :=
  (pairsOf findings).filterMap (fun p => confidencePairCheck p.1 p.2)

-- ---------------------------------------------------------------------------
-- detect (detector.py lines 129-165)
-- ---------------------------------------------------------------------------

/-- Run all contradiction detection rules against the agent outputs.  The
Python dict argument is modelled as an association list iterated in
insertion order; only its values' findings are read.  Rule 4 can raise
(see `_normalize_dollar`), so the result is in `Except`. -/
def detect (agent_outputs : List (String × AgentOutput)) : Except String (List Contradiction) :=
  let all_findings := (agent_outputs.map (fun p => p.2.findings)).flatten
  if all_findings.length < 2 then .ok []
  else do
    let r4 ← _rule_cost_estimate_divergence all_findings
    .ok (_rule_cpi_spi_direction all_findings
      ++ _rule_risk_severity_conflict all_findings
      ++ _rule_schedule_impact_mismatch all_findings
      ++ r4
      ++ _rule_root_cause_disagreement all_findings
      ++ _rule_mitigation_conflict all_findings
      ++ _rule_confidence_disparity all_findings)

-- ---------------------------------------------------------------------------
-- classify_severity (detector.py lines 589-640)
-- ---------------------------------------------------------------------------

/-- Lexicographic order on character lists (Python string comparison). -/
def strLtB : List Char → List Char → Bool
  | [], [] => false
  | [], _ :: _ => true
  | _ :: _, [] => false
  | a :: as, b :: bs => a.toNat < b.toNat || (a == b && strLtB as bs)

/-- `tuple(sorted([a, b]))` for the two agent names of a contradiction. -/
def pairKey (c : Contradiction) : String × String :=
  if strLtB c.finding_b.agent_name.data c.finding_a.agent_name.data
  then (c.finding_b.agent_name, c.finding_a.agent_name)
  else (c.finding_a.agent_name, c.finding_b.agent_name)

/-- The pair-count table, read once before the loop. -/
def pairCount (cs : List Contradiction) (p : String × String) : Nat :=
  (cs.filter (fun c => pairKey c == p)).length

def bothRecAction (c : Contradiction) : Prop :=
  (c.finding_a.finding_type = FindingType.recommendation
    ∨ c.finding_a.finding_type = FindingType.action)
  ∧ (c.finding_b.finding_type = FindingType.recommendation
    ∨ c.finding_b.finding_type = FindingType.action)

instance (c : Contradiction) : Decidable (bothRecAction c) :=
  inferInstanceAs (Decidable
    ((c.finding_a.finding_type = FindingType.recommendation
        ∨ c.finding_a.finding_type = FindingType.action)
      ∧ (c.finding_b.finding_type = FindingType.recommendation
        ∨ c.finding_b.finding_type = FindingType.action)))

/-- One iteration of the classification loop: the if/elif pair-count
escalation, then the recommendation/action escalation, both reading the
pair count computed before the loop. -/
def classifyStep (cnt : Nat) (c : Contradiction) : Contradiction :=
  let sev1 :=
    if 3 ≤ cnt ∧ c.severity = ContradictionSeverity.low then ContradictionSeverity.medium
    else if 3 ≤ cnt ∧ c.severity = ContradictionSeverity.medium then ContradictionSeverity.high
    else c.severity
  let sev2 := if bothRecAction c ∧ sev1 = ContradictionSeverity.low
    then ContradictionSeverity.medium else sev1
  { c with severity := sev2 }

/-- Review and (re-)classify the severity of a list of contradictions.  The
source mutates each element in place and returns the same list; the
functional model returns the updated list. -/
def classify_severity (contradictions : List Contradiction) : List Contradiction :=
  contradictions.map (fun c => classifyStep (pairCount contradictions (pairKey c)) c)

-- ---------------------------------------------------------------------------
-- suggest_resolution (detector.py lines 646-742)
-- ---------------------------------------------------------------------------

/-- The schedule-impact template (no agent-name interpolation). -/
def scheduleResolutionText : String :=
  "Resolution: Cross-reference both estimates against the IMS critical "
  ++ "path analysis. Validate assumptions about parallel vs. serial task "
  ++ "execution, resource availability, and dependency logic. The IMS "
  ++ "network schedule should be the single source of truth for duration "
  ++ "estimates."

/-- The cost-divergence template (no agent-name interpolation). -/
def costResolutionText : String :=
  "Resolution: Reconcile EAC methodologies. Verify whether agents are "
  ++ "using CPI-based (EAC = BAC/CPI), composite index, or bottom-up "
  ++ "estimates. Align on a single EAC methodology per program guidance "
  ++ "and document the basis of estimate. Present all three EAC methods "
  ++ "in the variance analysis report for leadership visibility."

/-- The mitigation-conflict template (no agent-name interpolation). -/
def mitigationResolutionText : String :=
  "Resolution: Evaluate both proposed corrective actions using a "
  ++ "cost-benefit analysis. Consider whether the actions are truly "
  ++ "mutually exclusive or can be sequenced (e.g., short-term mitigation "
  ++ "followed by longer-term strategic change). Present trade-offs to "
  ++ "the program manager for a decision informed by both perspectives."

/-- The confidence-disparity template (no agent-name interpolation). -/
def confidenceResolutionText : String :=
  "Resolution: Examine the evidence base underlying each agent's "
  ++ "confidence level. The agent with lower confidence should identify "
  ++ "what additional data would increase certainty. Consider whether "
  ++ "the higher-confidence agent has access to data the other lacks, "
  ++ "and share information to converge on a justified confidence level."

/-- Suggest how to resolve a detected contradiction: a template selected by
substring-matching the contradiction's description. -/
def suggest_resolution (contradiction : Contradiction) : String :=
  let desc_lower := pyLower contradiction.description
  let agent_a := contradiction.finding_a.agent_name
  let agent_b := contradiction.finding_b.agent_name
  if pyIn "cpi" desc_lower || pyIn "spi" desc_lower || pyIn "direction" desc_lower then
    "Resolution: Convene a joint review between " ++ agent_a ++ " and " ++ agent_b
    ++ (" to align on the underlying EVM data. Verify that both agents are "
      ++ "analyzing the same reporting period and WBS scope. If the disagreement "
      ++ "persists, defer to the CPR Format 1 data as the authoritative source "
      ++ "and flag the discrepancy for the program manager.")
  else if pyIn "risk" desc_lower && pyIn "severity" desc_lower then
    "Resolution: Apply the DoD 5x5 risk matrix consistently. Have " ++ agent_a
    ++ " and " ++ agent_b ++ (" independently re-score using the standardized likelihood "
      ++ "and consequence definitions. If scores still differ, escalate to the "
      ++ "Risk Review Board for adjudication with documented rationale.")
  else if pyIn "schedule" desc_lower && (pyIn "mismatch" desc_lower || pyIn "impact" desc_lower) then
    scheduleResolutionText
  else if pyIn "cost" desc_lower || pyIn "eac" desc_lower || pyIn "divergence" desc_lower then
    costResolutionText
  else if pyIn "root cause" desc_lower then
    "Resolution: Conduct a structured root cause analysis (e.g., Ishikawa "
    ++ "or 5-Why) with participation from both " ++ agent_a ++ " and " ++ agent_b
    ++ (". Multiple root causes may be valid (contributing factors). Document "
      ++ "the causal chain and weight each factor's contribution before "
      ++ "selecting corrective actions.")
  else if pyIn "mitigation" desc_lower || pyIn "conflict" desc_lower then
    mitigationResolutionText
  else if pyIn "confidence" desc_lower || pyIn "disparity" desc_lower then
    confidenceResolutionText
  else
    "Resolution: Schedule a reconciliation review between " ++ agent_a ++ " and "
    ++ agent_b ++ (". Each agent should present its evidence, methodology, and "
      ++ "assumptions. Identify the root cause of the disagreement and document "
      ++ "the agreed resolution with supporting rationale.")

-- ---------------------------------------------------------------------------
-- Resolution attachment (workflows/orchestrator.py lines 192-194)
-- ---------------------------------------------------------------------------

/-- The orchestrator's refinement loop: for each contradiction, store the
advisor's text in its resolution field. -/
def attachResolutions (cs : List Contradiction) : List Contradiction :=
  cs.map (fun c => { c with resolution := some (suggest_resolution c) })

/-- Ordinal rank of a severity (low < medium < high). -/
def sevRank : ContradictionSeverity → Nat
  | .low => 0
  | .medium => 1
  | .high => 2

instance {ε α : Type} [DecidableEq ε] [DecidableEq α] : DecidableEq (Except ε α) := fun a b =>
  match a, b with
  | .ok x, .ok y => decidable_of_iff (x = y) (by simp)
  | .error x, .error y => decidable_of_iff (x = y) (by simp)
  | .ok _, .error _ => isFalse (by simp)
  | .error _, .ok _ => isFalse (by simp)

-- ---------------------------------------------------------------------------
-- Concrete inputs used by witnesses and counterexamples
-- ---------------------------------------------------------------------------

def exSchedFA : Finding :=
  { agent_name := "alpha", finding_type := .observation,
    content := "schedule slip of 10 days", confidence := 0.5 }

def exSchedFB : Finding :=
  { agent_name := "beta", finding_type := .observation,
    content := "delay of 25 days", confidence := 0.5 }

def exSchedOuts : List (String × AgentOutput) :=
  [("alpha", { agent_name := "alpha", findings := [exSchedFA] }),
   ("beta", { agent_name := "beta", findings := [exSchedFB] })]

def exSchedContr : Contradiction :=
  { finding_a := exSchedFA, finding_b := exSchedFB,
    description := "Schedule impact mismatch: 'alpha' estimates ~10 days while 'beta' estimates ~25 days.",
    severity := .high }

def exCostFA : Finding :=
  { agent_name := "alpha", finding_type := .observation,
    content := "EAC projected at $500,000", confidence := 0.5 }

def exCostFB : Finding :=
  { agent_name := "beta", finding_type := .observation,
    content := "estimate at completion now $650,000", confidence := 0.5 }

def exCostFBsmall : Finding :=
  { agent_name := "beta", finding_type := .observation,
    content := "estimate at completion now $540,000", confidence := 0.5 }

def exCostOuts : List (String × AgentOutput) :=
  [("alpha", { agent_name := "alpha", findings := [exCostFA] }),
   ("beta", { agent_name := "beta", findings := [exCostFB] })]

def exCostContr : Contradiction :=
  { finding_a := exCostFA, finding_b := exCostFB,
    description := "Cost estimate divergence (30%): 'alpha' cites $500,000 while 'beta' cites $650,000.",
    severity := .high }

def exDirFA : Finding :=
  { agent_name := "alpha", finding_type := .observation,
    content := "CPI is improving, trending up", confidence := 0.5 }

def exDirFB : Finding :=
  { agent_name := "beta", finding_type := .observation,
    content := "CPI is declining and worsening", confidence := 0.5 }

def exDirOuts : List (String × AgentOutput) :=
  [("alpha", { agent_name := "alpha", findings := [exDirFA] }),
   ("beta", { agent_name := "beta", findings := [exDirFB] })]

def exDirContr : Contradiction :=
  { finding_a := exDirFA, finding_b := exDirFB,
    description := "CPI/SPI direction disagreement: 'alpha' indicates improvement while 'beta' indicates decline.",
    severity := .high }

def exBadFA : Finding :=
  { agent_name := "alpha", finding_type := .observation,
    content := "eac $,", confidence := 0.5 }

def exBadFB : Finding :=
  { agent_name := "beta", finding_type := .observation,
    content := "eac $5", confidence := 0.5 }

def exBadOuts : List (String × AgentOutput) :=
  [("alpha", { agent_name := "alpha", findings := [exBadFA] }),
   ("beta", { agent_name := "beta", findings := [exBadFB] })]

def exLowFA : Finding :=
  { agent_name := "alpha", finding_type := .observation, content := "x", confidence := 0.5 }

def exLowFB : Finding :=
  { agent_name := "beta", finding_type := .observation, content := "y", confidence := 0.5 }

def exLowContr : Contradiction :=
  { finding_a := exLowFA, finding_b := exLowFB, description := "d", severity := .low }

def exSingleOuts : List (String × AgentOutput) :=
  [("alpha", { agent_name := "alpha", findings := [exSchedFA] })]

def exSchedFBsmall : Finding :=
  { agent_name := "beta", finding_type := .observation,
    content := "delay of 13 days", confidence := 0.5 }

-- ---------------------------------------------------------------------------
-- Substring lemmas
-- ---------------------------------------------------------------------------

theorem isPrefixOf_self_append (l t : List Char) : l.isPrefixOf (l ++ t) = true := by
  induction l with
  | nil => simp [List.isPrefixOf]
  | cons c cs ih =>
    show (c == c && cs.isPrefixOf (cs ++ t)) = true
    simp only [BEq.refl, ih, Bool.and_self]

theorem pyInChars_nil (l : List Char) : pyInChars [] l = true := by
  cases l <;> rfl

theorem pyInChars_self (n : List Char) : pyInChars n n = true := by
  cases n with
  | nil => rfl
  | cons c cs =>
    have h : (c :: cs).isPrefixOf (c :: cs) = true := by
      have h0 := isPrefixOf_self_append (c :: cs) []
      simp only [List.append_nil] at h0
      exact h0
    simp only [pyInChars, h, Bool.true_or]

theorem isPrefixOf_append_of_isPrefixOf (n m t : List Char)
    (h : n.isPrefixOf m = true) : n.isPrefixOf (m ++ t) = true := by
  induction n generalizing m with
  | nil => simp [List.isPrefixOf]
  | cons c cs ih =>
    cases m with
    | nil => exact absurd h (by simp [List.isPrefixOf])
    | cons d ds =>
      have h' : (c == d && cs.isPrefixOf ds) = true := h
      simp only [Bool.and_eq_true] at h'
      show (c == d && cs.isPrefixOf (ds ++ t)) = true
      simp only [Bool.and_eq_true]
      exact ⟨h'.1, ih ds h'.2⟩

theorem pyInChars_append_left (n x y : List Char)
    (h : pyInChars n x = true) : pyInChars n (x ++ y) = true := by
  induction x with
  | nil =>
    have hn : n = [] := by
      cases n with
      | nil => rfl
      | cons c cs => exact absurd h (by simp [pyInChars, List.isPrefixOf])
    subst hn
    exact pyInChars_nil y
  | cons c cs ih =>
    simp only [pyInChars, Bool.or_eq_true] at h
    rcases h with h | h
    · have hp := isPrefixOf_append_of_isPrefixOf n (c :: cs) y h
      cases hy : (c :: cs) ++ y with
      | nil => simp at hy
      | cons d ds =>
        rw [hy] at hp
        simp only [pyInChars, hp, Bool.true_or]
    · simp only [List.cons_append, pyInChars, List.append_eq, ih h, Bool.or_true]

theorem pyInChars_append_right (n x y : List Char)
    (h : pyInChars n y = true) : pyInChars n (x ++ y) = true := by
  induction x with
  | nil => simpa using h
  | cons c cs ih => simp only [List.cons_append, pyInChars, List.append_eq, ih, Bool.or_true]

theorem pyIn_append_left (n x y : String) (h : pyIn n x = true) : pyIn n (x ++ y) = true := by
  have := pyInChars_append_left n.data x.data y.data h
  simpa [pyIn, String.data_append] using this

theorem pyIn_append_right (n x y : String) (h : pyIn n y = true) : pyIn n (x ++ y) = true := by
  have := pyInChars_append_right n.data x.data y.data h
  simpa [pyIn, String.data_append] using this

theorem pyIn_self (n : String) : pyIn n n = true := pyInChars_self n.data

-- ---------------------------------------------------------------------------
-- Shape of every emitted contradiction: the two findings come from different
-- agents and the resolution field starts out absent
-- ---------------------------------------------------------------------------

theorem cpiPairCheck_shape (fa fb : Finding) (c : Contradiction)
    (h : cpiPairCheck fa fb = some c) :
    c.finding_a.agent_name ≠ c.finding_b.agent_name ∧ c.resolution = none := by
  unfold cpiPairCheck at h
  by_cases hn : (fa.agent_name == fb.agent_name) = true
  · simp [hn] at h
  · simp only [hn, Bool.false_eq_true, if_false, ite_false] at h
    split at h
    · cases h
      refine ⟨?_, rfl⟩
      simpa using hn
    · cases h

theorem riskPairCheck_shape (fa fb : Finding) (c : Contradiction)
    (h : riskPairCheck fa fb = some c) :
    c.finding_a.agent_name ≠ c.finding_b.agent_name ∧ c.resolution = none := by
  unfold riskPairCheck at h
  by_cases hn : (fa.agent_name == fb.agent_name) = true
  · simp [hn] at h
  · rcases hA : _extract_severity_label (_text_lower fa) with _ | sa <;>
      rcases hB : _extract_severity_label (_text_lower fb) with _ | sb <;>
      simp only [hn, Bool.false_eq_true, if_false, ite_false, hA, hB] at h <;>
      try cases h
    by_cases hne : sa = sb
    · simp [hne] at h
    · by_cases hov : 5 ≤ overlapCount (pySplit (_text_lower fa)) (pySplit (_text_lower fb)) rule2_stopwords
      · simp only [ne_eq, hne, not_false_eq_true, if_true, ite_true, hov] at h
        cases h
        exact ⟨by simpa using hn, rfl⟩
      · simp [hne, hov] at h

theorem except_ok_bind {e a b : Type} (x : a) (f : a → Except e b) :
    (Except.ok x >>= f) = f x := rfl

theorem except_error_bind {e a b : Type} (err : e) (f : a → Except e b) :
    ((Except.error err : Except e a) >>= f) = Except.error err := rfl

theorem schedulePairCheck_shape (fa fb : Finding) (c : Contradiction)
    (h : schedulePairCheck fa fb = some c) :
    c.finding_a.agent_name ≠ c.finding_b.agent_name ∧ c.resolution = none := by
  unfold schedulePairCheck at h
  by_cases hn : (fa.agent_name == fb.agent_name) = true
  · simp [hn] at h
  · simp only [hn, Bool.false_eq_true, if_false, ite_false] at h
    split_ifs at h <;> cases h <;> exact ⟨by simpa using hn, rfl⟩

theorem confidencePairCheck_shape (fa fb : Finding) (c : Contradiction)
    (h : confidencePairCheck fa fb = some c) :
    c.finding_a.agent_name ≠ c.finding_b.agent_name ∧ c.resolution = none := by
  unfold confidencePairCheck at h
  by_cases hn : (fa.agent_name == fb.agent_name) = true
  · simp [hn] at h
  · simp only [hn, Bool.false_eq_true, if_false, ite_false] at h
    split_ifs at h <;> cases h <;> exact ⟨by simpa using hn, rfl⟩

theorem rootCausePairCheck_shape (fa fb : Finding) (c : Contradiction)
    (h : rootCausePairCheck fa fb = some c) :
    c.finding_a.agent_name ≠ c.finding_b.agent_name ∧ c.resolution = none := by
  unfold rootCausePairCheck at h
  by_cases hn : (fa.agent_name == fb.agent_name) = true
  · simp [hn] at h
  · simp only [hn, Bool.false_eq_true, if_false, ite_false] at h
    split_ifs at h <;> try cases h
    rcases hf : (cause_terms.find? (fun term =>
        pyIn term (_text_lower fa) && pyIn term (_text_lower fb) &&
          causeSnippet term (_text_lower fa) != causeSnippet term (_text_lower fb))) with _ | t <;>
      rw [hf] at h <;> cases h <;> exact ⟨by simpa using hn, rfl⟩

theorem mitigationPairCheck_shape (fa fb : Finding) (c : Contradiction)
    (h : c ∈ mitigationPairCheck fa fb) :
    c.finding_a.agent_name ≠ c.finding_b.agent_name ∧ c.resolution = none := by
  unfold mitigationPairCheck at h
  by_cases hn : (fa.agent_name == fb.agent_name) = true
  · simp [hn] at h
  · simp only [hn, Bool.false_eq_true, if_false, ite_false] at h
    rcases List.mem_filterMap.1 h with ⟨cp, _, hsome⟩
    split_ifs at hsome <;> cases hsome <;> exact ⟨by simpa using hn, rfl⟩

theorem costPairCheck_shape (fa fb : Finding) (l : List Contradiction)
    (h : costPairCheck fa fb = .ok l) (c : Contradiction) (hc : c ∈ l) :
    c.finding_a.agent_name ≠ c.finding_b.agent_name ∧ c.resolution = none := by
  unfold costPairCheck at h
  by_cases hn : (fa.agent_name == fb.agent_name) = true
  · simp [hn] at h
    subst h
    cases hc
  · simp only [hn, Bool.false_eq_true, if_false, ite_false] at h
    rcases hA : extractDollars (dollarFinditer fa.content) with e | la <;> rw [hA] at h
    · rw [except_error_bind] at h
      cases h
    · rw [except_ok_bind] at h
      rcases hB : extractDollars (dollarFinditer fb.content) with e | lb <;> rw [hB] at h
      · rw [except_error_bind] at h
        cases h
      · rw [except_ok_bind] at h
        split_ifs at h <;> cases h <;>
          first
          | (simp only [List.mem_singleton] at hc
             subst hc
             exact ⟨by simpa using hn, rfl⟩)
          | cases hc

theorem costPairsRun_mem (ps : List (Finding × Finding)) (out : List Contradiction)
    (h : costPairsRun ps = .ok out) (c : Contradiction) (hc : c ∈ out) :
    ∃ (p : Finding × Finding) (l : List Contradiction),
      costPairCheck p.1 p.2 = .ok l ∧ c ∈ l := by
  induction ps generalizing out with
  | nil =>
    simp [costPairsRun] at h
    subst h
    cases hc
  | cons p ps ih =>
    unfold costPairsRun at h
    rcases hp : costPairCheck p.1 p.2 with e | l1 <;> rw [hp] at h
    · rw [except_error_bind] at h
      cases h
    · rw [except_ok_bind] at h
      rcases hr : costPairsRun ps with e2 | l2 <;> rw [hr] at h
      · rw [except_error_bind] at h
        cases h
      · rw [except_ok_bind] at h
        cases h
        rcases List.mem_append.1 hc with h1 | h2
        · exact ⟨p, l1, hp, h1⟩
        · exact ih l2 hr h2

theorem detect_ok_shape (outs : List (String × AgentOutput)) (cs : List Contradiction)
    (h : detect outs = .ok cs) :
    ∀ c ∈ cs, c.finding_a.agent_name ≠ c.finding_b.agent_name ∧ c.resolution = none := by
  intro c hc
  simp only [detect] at h
  by_cases hlen : ((outs.map (fun p => p.2.findings)).flatten).length < 2
  · rw [if_pos hlen] at h
    cases h
    cases hc
  · rw [if_neg hlen] at h
    rcases hr4 : _rule_cost_estimate_divergence ((outs.map (fun p => p.2.findings)).flatten)
      with e | r4 <;> rw [hr4] at h
    · rw [except_error_bind] at h
      cases h
    · rw [except_ok_bind] at h
      cases h
      simp only [List.mem_append] at hc
      rcases hc with ((((((hc | hc) | hc) | hc) | hc) | hc) | hc)
      · rcases List.mem_filterMap.1 hc with ⟨p, _, hsome⟩
        exact cpiPairCheck_shape p.1 p.2 c hsome
      · rcases List.mem_filterMap.1 hc with ⟨p, _, hsome⟩
        exact riskPairCheck_shape p.1 p.2 c hsome
      · rcases List.mem_filterMap.1 hc with ⟨p, _, hsome⟩
        exact schedulePairCheck_shape p.1 p.2 c hsome
      · unfold _rule_cost_estimate_divergence at hr4
        rcases costPairsRun_mem _ r4 hr4 c hc with ⟨p, l, hpl, hcl⟩
        exact costPairCheck_shape p.1 p.2 l hpl c hcl
      · rcases List.mem_filterMap.1 hc with ⟨p, _, hsome⟩
        exact rootCausePairCheck_shape p.1 p.2 c hsome
      · rcases List.mem_flatMap.1 hc with ⟨p, _, hmem⟩
        exact mitigationPairCheck_shape p.1 p.2 c hmem
      · rcases List.mem_filterMap.1 hc with ⟨p, _, hsome⟩
        exact confidencePairCheck_shape p.1 p.2 c hsome


theorem pyIn_interp (s1 a s2 b t : String) :
    pyIn a (s1 ++ a ++ s2 ++ b ++ t) = true ∧ pyIn b (s1 ++ a ++ s2 ++ b ++ t) = true := by
  constructor
  · exact pyIn_append_left _ _ _ (pyIn_append_left _ _ _
      (pyIn_append_left _ _ _ (pyIn_append_right _ _ _ (pyIn_self a))))
  · exact pyIn_append_left _ _ _ (pyIn_append_right _ _ _ (pyIn_self b))

-- ---------------------------------------------------------------------------
-- Claims
-- ---------------------------------------------------------------------------

/-- C1 (counterexample): the engine-produced schedule-mismatch contradiction is
routed to the schedule template, whose text contains neither agent name, so
not every template interpolates the two agent names. -/
theorem C1_resolution_counterexample :
    detect exSchedOuts = .ok [exSchedContr] ∧
    suggest_resolution exSchedContr = scheduleResolutionText ∧
    pyIn exSchedContr.finding_a.agent_name (suggest_resolution exSchedContr) = false ∧
    pyIn exSchedContr.finding_b.agent_name (suggest_resolution exSchedContr) = false := by
  refine ⟨by decide, by decide, by decide, by decide⟩

/-- C1 (amended): suggest_resolution deterministically returns the template
selected by substring-matching the description; the direction, risk-severity,
root-cause and generic templates contain both agent names verbatim, while the
schedule, cost, mitigation and confidence templates are fixed strings without
the agent names. -/
theorem C1_resolution_template_names (c : Contradiction) :
    (pyIn c.finding_a.agent_name (suggest_resolution c) = true ∧
     pyIn c.finding_b.agent_name (suggest_resolution c) = true) ∨
    suggest_resolution c = scheduleResolutionText ∨
    suggest_resolution c = costResolutionText ∨
    suggest_resolution c = mitigationResolutionText ∨
    suggest_resolution c = confidenceResolutionText := by
  simp only [suggest_resolution]
  split_ifs <;>
    first
    | exact Or.inl ⟨(pyIn_interp _ _ _ _ _).1, (pyIn_interp _ _ _ _ _).2⟩
    | exact Or.inr (Or.inl rfl)
    | exact Or.inr (Or.inr (Or.inl rfl))
    | exact Or.inr (Or.inr (Or.inr (Or.inl rfl)))
    | exact Or.inr (Or.inr (Or.inr (Or.inr rfl)))

/-- C2: the error branch of dollar normalization is reachable: on a cost-topic
finding containing a dollar sign followed only by a comma, detect raises
(float applied to an empty string), contradicting the no-exception design. -/
theorem C2_detect_raises :
    detect exBadOuts = .error "could not convert string to float" := by decide

/-- C3: every Contradiction in a successful detect result has two findings
from different agents; same-agent pairs never yield a Contradiction under any
of the seven rules. -/
theorem C3_different_agents (outs : List (String × AgentOutput)) (cs : List Contradiction)
    (h : detect outs = .ok cs) :
    ∀ c ∈ cs, c.finding_a.agent_name ≠ c.finding_b.agent_name :=
  fun c hc => (detect_ok_shape outs cs h c hc).1

theorem C3_different_agents_witness :
    exCostContr.finding_a.agent_name ≠ exCostContr.finding_b.agent_name :=
  C3_different_agents exCostOuts [exCostContr] (by decide) exCostContr (by decide)

/-- C4: every Contradiction produced by detect starts with an absent (none)
resolution field, and after the orchestrator calls suggest_resolution once per
contradiction, each one carries the advisor text in its resolution field. -/
theorem C4_resolution_attached (outs : List (String × AgentOutput)) (cs : List Contradiction)
    (h : detect outs = .ok cs) :
    (∀ c ∈ cs, c.resolution = none) ∧
    ∀ c ∈ attachResolutions cs, c.resolution = some (suggest_resolution { c with resolution := none }) := by
  constructor
  · exact fun c hc => (detect_ok_shape outs cs h c hc).2
  · intro c hc
    rcases List.mem_map.1 hc with ⟨x, hx, rfl⟩
    simp only [suggest_resolution]

theorem C4_resolution_attached_witness :
    exDirContr.resolution = none ∧
    ({ exDirContr with resolution := some (suggest_resolution exDirContr) } : Contradiction).resolution
      = some (suggest_resolution
          ({ exDirContr with resolution := none } : Contradiction)) := by
  have h := C4_resolution_attached exDirOuts [exDirContr] (by decide)
  exact ⟨h.1 exDirContr (by decide), h.2 _ (by decide)⟩

/-- C9: detect returns the empty list whenever fewer than 2 findings are
flattened from the agent outputs; no rule is run and no Contradiction is
produced. -/
theorem C9_early_exit (outs : List (String × AgentOutput))
    (h : ((outs.map (fun p => p.2.findings)).flatten).length < 2) :
    detect outs = .ok [] := by
  simp only [detect]
  rw [if_pos h]

theorem C9_early_exit_witness : detect exSingleOuts = .ok [] :=
  C9_early_exit exSingleOuts (by decide)

/-- C5: classify_severity escalates by exactly one step per invocation: for a
contradiction whose unordered agent pair accumulated at least 3 contradictions
in the input list, low becomes medium and medium becomes high (never low to
high in one pass); independently a low contradiction between two
recommendation/action findings becomes medium; all other severities are
retained. -/
theorem C5_classify_single_step (cs : List Contradiction) :
    classify_severity cs = cs.map (fun c =>
      { c with severity :=
          if 3 ≤ pairCount cs (pairKey c) ∧ c.severity = ContradictionSeverity.low then
            ContradictionSeverity.medium
          else if 3 ≤ pairCount cs (pairKey c) ∧ c.severity = ContradictionSeverity.medium then
            ContradictionSeverity.high
          else if bothRecAction c ∧ c.severity = ContradictionSeverity.low then
            ContradictionSeverity.medium
          else c.severity }) := by
  unfold classify_severity
  congr 1
  funext c
  by_cases h3 : 3 ≤ pairCount cs (pairKey c) <;> cases hs : c.severity <;>
    by_cases hra : bothRecAction c <;>
    simp [classifyStep, h3, hs, hra]

/-- C6: classify_severity is not idempotent: on three low-severity
contradictions between the same two agents, the first call escalates all three
to medium and a second call on that result escalates them to high. -/
theorem C6_not_idempotent :
    classify_severity (classify_severity [exLowContr, exLowContr, exLowContr]) ≠
      classify_severity [exLowContr, exLowContr, exLowContr] ∧
    (classify_severity [exLowContr, exLowContr, exLowContr]).map (fun c => c.severity) =
      [.medium, .medium, .medium] ∧
    (classify_severity (classify_severity [exLowContr, exLowContr, exLowContr])).map (fun c => c.severity) =
      [.high, .high, .high] := by
  refine ⟨by decide, by decide, by decide⟩

/-- One loop iteration of classify_severity never lowers a severity. -/
theorem classifyStep_never_lowers (cnt : Nat) (c : Contradiction) :
    sevRank c.severity ≤ sevRank (classifyStep cnt c).severity ∧
    (c.severity = ContradictionSeverity.high →
      (classifyStep cnt c).severity = ContradictionSeverity.high) := by
  by_cases h3 : 3 ≤ cnt <;> cases hs : c.severity <;> by_cases hra : bothRecAction c <;>
    simp [classifyStep, h3, hs, hra, sevRank]

/-- C10: classify_severity never lowers a severity: positionally, every
output severity is at least the input severity in the order low < medium <
high, and a high severity is left unchanged. -/
theorem C10_never_lowered (cs : List Contradiction) (i : Nat)
    (h1 : i < cs.length) (h2 : i < (classify_severity cs).length) :
    sevRank (cs.get ⟨i, h1⟩).severity ≤ sevRank ((classify_severity cs).get ⟨i, h2⟩).severity ∧
    ((cs.get ⟨i, h1⟩).severity = ContradictionSeverity.high →
      ((classify_severity cs).get ⟨i, h2⟩).severity = ContradictionSeverity.high) := by
  have hmap : (classify_severity cs).get ⟨i, h2⟩ =
      classifyStep (pairCount cs (pairKey (cs.get ⟨i, h1⟩))) (cs.get ⟨i, h1⟩) := by
    simp [classify_severity]
  rw [hmap]
  exact classifyStep_never_lowers _ _

theorem C10_never_lowered_witness :
    sevRank ([exLowContr].get ⟨0, by decide⟩).severity ≤
      sevRank ((classify_severity [exLowContr]).get ⟨0, by decide⟩).severity ∧
    (([exLowContr].get ⟨0, by decide⟩).severity = ContradictionSeverity.high →
      ((classify_severity [exLowContr]).get ⟨0, by decide⟩).severity = ContradictionSeverity.high) :=
  C10_never_lowered [exLowContr] 0 (by decide) (by decide)

/-- C7: for a pair of cost-topic findings from different agents whose dollar
extraction succeeds with nonempty lists and positive maxima a and b, the cost
rule emits exactly one contradiction iff the relative difference
pct_diff = abs (a - b) / min a b exceeds 0.10, with severity high iff pct_diff
exceeds 0.25 and medium otherwise. -/
theorem C7_cost_divergence_rule (fa fb : Finding)
    (hn : (fa.agent_name == fb.agent_name) = false)
    (ha : cost_terms.any (fun t => pyIn t (_text_lower fa)) = true)
    (hb : cost_terms.any (fun t => pyIn t (_text_lower fb)) = true)
    (la lb : List ℚ)
    (hla : extractDollars (dollarFinditer fa.content) = .ok la)
    (hlb : extractDollars (dollarFinditer fb.content) = .ok lb)
    (hne_a : la ≠ []) (hne_b : lb ≠ [])
    (hpos_a : 0 < listMax la) (hpos_b : 0 < listMax lb) :
    _rule_cost_estimate_divergence [fa, fb] =
      .ok (if 0.10 < |listMax la - listMax lb| / min (listMax la) (listMax lb) then
            [{ finding_a := fa, finding_b := fb,
               description := "Cost estimate divergence ("
                 ++ formatPct0 (|listMax la - listMax lb| / min (listMax la) (listMax lb))
                 ++ "): '" ++ fa.agent_name ++ "' cites $" ++ formatCommaF0 (listMax la)
                 ++ " while '" ++ fb.agent_name ++ "' cites $" ++ formatCommaF0 (listMax lb) ++ ".",
               severity := if 0.25 < |listMax la - listMax lb| / min (listMax la) (listMax lb)
                 then ContradictionSeverity.high else ContradictionSeverity.medium }]
          else []) := by
  simp only [_rule_cost_estimate_divergence]
  have hfil : (List.filter (fun f => cost_terms.any (fun t => pyIn t (_text_lower f))) [fa, fb])
      = [fa, fb] := by
    simp [List.filter, ha, hb]
  rw [hfil]
  have hpairs : pairsOf [fa, fb] = [(fa, fb)] := by simp [pairsOf]
  rw [hpairs]
  simp only [costPairsRun]
  simp only [costPairCheck, hn, Bool.false_eq_true, if_false, ite_false]
  rw [hla, except_ok_bind, hlb, except_ok_bind]
  simp only [hne_a, hne_b, ne_eq, not_false_eq_true, and_self, if_true, ite_true,
    hpos_a, hpos_b]
  by_cases hpct : (0.10 : ℚ) < |listMax la - listMax lb| / min (listMax la) (listMax lb) <;>
    simp [hpct, except_ok_bind, except_error_bind]

/-- C7 witness: 500,000 versus 650,000 dollars yields exactly one
high-severity divergence contradiction; 500,000 versus 540,000 yields none. -/
theorem C7_cost_divergence_rule_witness :
    _rule_cost_estimate_divergence [exCostFA, exCostFB] = .ok [exCostContr] ∧
    _rule_cost_estimate_divergence [exCostFA, exCostFBsmall] = .ok [] := by
  constructor
  · rw [C7_cost_divergence_rule exCostFA exCostFB (by decide) (by decide) (by decide)
      [500000] [650000] (by decide) (by decide) (by decide) (by decide) (by decide) (by decide)]
    decide
  · rw [C7_cost_divergence_rule exCostFA exCostFBsmall (by decide) (by decide) (by decide)
      [500000] [540000] (by decide) (by decide) (by decide) (by decide) (by decide) (by decide)]
    decide

/-- C8: for a pair of schedule-topic findings from different agents whose
duration extraction (week = 7 days, month = 30 days, maximum per finding) is
nonempty with positive maxima, the schedule rule emits exactly one
contradiction iff max(a,b)/min(a,b) exceeds 1.5, with severity high iff the
ratio exceeds 2.0 and medium otherwise. -/
theorem C8_schedule_mismatch_rule (fa fb : Finding)
    (hn : (fa.agent_name == fb.agent_name) = false)
    (ha : schedule_terms.any (fun t => pyIn t (_text_lower fa)) = true)
    (hb : schedule_terms.any (fun t => pyIn t (_text_lower fb)) = true)
    (hma : durationFinditer (_text_lower fa) ≠ [])
    (hmb : durationFinditer (_text_lower fb) ≠ [])
    (hpa : 0 < listMax ((durationFinditer (_text_lower fa)).map _normalize_duration_to_days))
    (hpb : 0 < listMax ((durationFinditer (_text_lower fb)).map _normalize_duration_to_days)) :
    _rule_schedule_impact_mismatch [fa, fb] =
      (if 1.5 < max (listMax ((durationFinditer (_text_lower fa)).map _normalize_duration_to_days))
                  (listMax ((durationFinditer (_text_lower fb)).map _normalize_duration_to_days))
              / min (listMax ((durationFinditer (_text_lower fa)).map _normalize_duration_to_days))
                  (listMax ((durationFinditer (_text_lower fb)).map _normalize_duration_to_days)) then
        [{ finding_a := fa, finding_b := fb,
           description := "Schedule impact mismatch: '" ++ fa.agent_name ++ "' estimates ~"
             ++ formatF0 (listMax ((durationFinditer (_text_lower fa)).map _normalize_duration_to_days))
             ++ " days while '" ++ fb.agent_name ++ "' estimates ~"
             ++ formatF0 (listMax ((durationFinditer (_text_lower fb)).map _normalize_duration_to_days))
             ++ " days.",
           severity :=
             if 2.0 < max (listMax ((durationFinditer (_text_lower fa)).map _normalize_duration_to_days))
                   (listMax ((durationFinditer (_text_lower fb)).map _normalize_duration_to_days))
                 / min (listMax ((durationFinditer (_text_lower fa)).map _normalize_duration_to_days))
                   (listMax ((durationFinditer (_text_lower fb)).map _normalize_duration_to_days))
             then ContradictionSeverity.high else ContradictionSeverity.medium }]
      else []) := by
  simp only [_rule_schedule_impact_mismatch]
  have hfil : (List.filter (fun f => schedule_terms.any (fun t => pyIn t (_text_lower f))) [fa, fb])
      = [fa, fb] := by
    simp [List.filter, ha, hb]
  rw [hfil]
  have hpairs : pairsOf [fa, fb] = [(fa, fb)] := by simp [pairsOf]
  rw [hpairs]
  have hpair : schedulePairCheck fa fb =
      (if 1.5 < max (listMax ((durationFinditer (_text_lower fa)).map _normalize_duration_to_days))
                  (listMax ((durationFinditer (_text_lower fb)).map _normalize_duration_to_days))
              / min (listMax ((durationFinditer (_text_lower fa)).map _normalize_duration_to_days))
                  (listMax ((durationFinditer (_text_lower fb)).map _normalize_duration_to_days)) then
        some { finding_a := fa, finding_b := fb,
               description := "Schedule impact mismatch: '" ++ fa.agent_name ++ "' estimates ~"
                 ++ formatF0 (listMax ((durationFinditer (_text_lower fa)).map _normalize_duration_to_days))
                 ++ " days while '" ++ fb.agent_name ++ "' estimates ~"
                 ++ formatF0 (listMax ((durationFinditer (_text_lower fb)).map _normalize_duration_to_days))
                 ++ " days.",
               severity :=
                 if 2.0 < max (listMax ((durationFinditer (_text_lower fa)).map _normalize_duration_to_days))
                       (listMax ((durationFinditer (_text_lower fb)).map _normalize_duration_to_days))
                     / min (listMax ((durationFinditer (_text_lower fa)).map _normalize_duration_to_days))
                       (listMax ((durationFinditer (_text_lower fb)).map _normalize_duration_to_days))
                 then ContradictionSeverity.high else ContradictionSeverity.medium }
      else none) := by
    simp only [schedulePairCheck, hn, Bool.false_eq_true, if_false, ite_false]
    simp only [hma, hmb, ne_eq, not_false_eq_true, and_self, if_true, ite_true, hpa, hpb]
  by_cases hr : (1.5 : ℚ) < max (listMax ((durationFinditer (_text_lower fa)).map _normalize_duration_to_days))
        (listMax ((durationFinditer (_text_lower fb)).map _normalize_duration_to_days))
      / min (listMax ((durationFinditer (_text_lower fa)).map _normalize_duration_to_days))
        (listMax ((durationFinditer (_text_lower fb)).map _normalize_duration_to_days)) <;>
    simp [List.filterMap, hpair, hr]

/-- C8 witness: 10 days versus 25 days yields one high-severity mismatch
contradiction; 10 days versus 13 days yields none. -/
theorem C8_schedule_mismatch_rule_witness :
    _rule_schedule_impact_mismatch [exSchedFA, exSchedFB] = [exSchedContr] ∧
    _rule_schedule_impact_mismatch [exSchedFA, exSchedFBsmall] = [] := by
  constructor
  · rw [C8_schedule_mismatch_rule exSchedFA exSchedFB (by decide) (by decide) (by decide)
      (by decide) (by decide) (by decide) (by decide)]
    decide
  · rw [C8_schedule_mismatch_rule exSchedFA exSchedFBsmall (by decide) (by decide) (by decide)
      (by decide) (by decide) (by decide) (by decide)]
    decide
